import Mathlib

/-!
Verification of the statarb pairs-trading strategy (src/statarb.py).

The development shallowly embeds the two algorithmic parts of the script:

* the spread / z-score engine `calculate_spread_and_zscore` (lines 148-175),
  modelled with exact rational arithmetic for prices and `Real.sqrt` for the
  rolling standard deviation; a pandas `NaN` cell is modelled as `Option.none`;
* the `on_tick` entry/exit state machine (lines 49-108), modelled as a pure
  function of a per-cycle market snapshot (`TickEnv`) and the strategy's
  mutable fields (`StratState`).  Nullable values of the external market-data
  interfaces (`RateOracle.get_pair_rate`, `get_mid_price`) are modelled as
  `Option`, following their documented contracts; comparisons against a `NaN`
  z-score are `false`, as for Python floats.
-/

namespace StatArb

/-! ### Data model of the engine -/

/-- One row of the timestamp-inner-joined candle data (`pd.merge` on
`timestamp`, line 157): the two close prices sharing one timestamp. -/
structure AlignedRow where
  timestamp : Int
  close_1 : Rat
  close_2 : Rat
  deriving DecidableEq, Inhabited

/-- One row of the dataframe returned by `calculate_spread_and_zscore`:
the aligned closes extended with spread, rolling statistics and z-score.
`none` models a pandas `NaN` cell. -/
structure SpreadRow where
  timestamp : Int
  close_1 : Rat
  close_2 : Rat
  spread : Rat
  rolling_mean : Option Rat
  rolling_std : Option Real
  z_score : Option Real

/-- Default row used with `List.getD`. -/
def dRow : SpreadRow := ⟨0, 0, 0, 0, none, none, none⟩

/-- Spread of one aligned row, line 160:
`df["spread"] = df["close_1"] - (df["close_2"] * self.hedge_ratio)`. -/
def spread_of (hedge_ratio : Rat) (r : AlignedRow) : Rat :=
  r.close_1 - r.close_2 * hedge_ratio

/-- Arithmetic mean of a list of rationals (`rolling(...).mean()`). -/
def listMean (w : List Rat) : Rat := w.sum / w.length

/-- Sample variance with `ddof = 1`, as used by pandas `rolling(...).std()`;
`none` (NaN) on fewer than two observations. -/
def sampleVar (w : List Rat) : Option Rat :=
  if 2 ≤ w.length then
    some ((w.map (fun x => (x - listMean w) ^ 2)).sum / ((w.length : Rat) - 1))
  else none

/-- The pandas rolling window of size `n` ending at row `i` inclusive
(`min_periods` defaults to the window size, so the first `n - 1` rows have
no window). -/
def window (n : Nat) (xs : List Rat) (i : Nat) : Option (List Rat) :=
  if n ≤ i + 1 then some ((xs.take (i + 1)).drop (i + 1 - n)) else none

/-- Row `i` of `df["spread"].rolling(window=n).mean()` (line 163). -/
def rolling_mean (n : Nat) (xs : List Rat) (i : Nat) : Option Rat :=
  (window n xs i).map listMean

/-- Sample variance of the rolling window: the square of row `i` of
`df["spread"].rolling(window=n).std()` (line 164). -/
def rolling_var (n : Nat) (xs : List Rat) (i : Nat) : Option Rat :=
  (window n xs i).bind sampleVar

/-- Row `i` of `df["spread"].rolling(window=n).std()` (line 164). -/
noncomputable def rolling_std (n : Nat) (xs : List Rat) (i : Nat) : Option Real :=
  (rolling_var n xs i).map (fun v : Rat => Real.sqrt (v : Real))

/-- Row `i` of `df["z_score"] = (df["spread"] - rolling_mean) / rolling_std`
(line 167).  The float division yields `NaN` when the standard deviation is
`NaN` or zero (the numerator is then zero as well, and IEEE `0/0 = NaN`), so
those cells are modelled as `none`; the sample variance is never negative, so
a zero standard deviation is exactly `rolling_var ≤ 0`. -/
noncomputable def z_score_at (n : Nat) (xs : List Rat) (i : Nat) : Option Real :=
  match rolling_mean n xs i, rolling_var n xs i with
  | some m, some v =>
      if v ≤ 0 then none
      else some (((xs.getD i 0 - m : Rat) : Real) / Real.sqrt (v : Real))
  | _, _ => none

/-- The rows of the dataframe built by lines 160-167 from the aligned data. -/
noncomputable def spread_rows (hedge_ratio : Rat) (zscore_length : Nat)
    (aligned : List AlignedRow) : List SpreadRow :=
  let spreads := aligned.map (spread_of hedge_ratio)
  (List.range aligned.length).map (fun i =>
    ⟨(aligned.getD i default).timestamp,
     (aligned.getD i default).close_1,
     (aligned.getD i default).close_2,
     spreads.getD i 0,
     rolling_mean zscore_length spreads i,
     rolling_std zscore_length spreads i,
     z_score_at zscore_length spreads i⟩)

/-- `StatArb.calculate_spread_and_zscore` (lines 148-175), after the merge:
`None` (here `none`) when fewer than `spread_length` aligned rows exist,
otherwise the dataframe with spread, rolling statistics and z-score. -/
noncomputable def calculate_spread_and_zscore (hedge_ratio : Rat)
    (spread_length zscore_length : Nat) (aligned : List AlignedRow) :
    Option (List SpreadRow) :=
  if spread_length ≤ aligned.length then
    some (spread_rows hedge_ratio zscore_length aligned)
  else none

/-! ### Data model of the state machine -/

/-- Side of a submitted order (`self.buy` / `self.sell`). -/
inductive Side where
  | buy
  | sell
  deriving DecidableEq

/-- Hummingbot `PositionAction` as used by the script. -/
inductive PositionAction where
  | OPEN
  | CLOSE
  deriving DecidableEq

/-- One order submission, with the arguments passed to `self.buy` /
`self.sell` that the strategy varies. -/
structure OrderReq where
  trading_pair : String
  side : Side
  amount : Rat
  price : Rat
  position_action : PositionAction
  deriving DecidableEq

/-- The configuration constants of the `StatArb` class (lines 17-35). -/
structure StratConfig where
  trading_pair_1 : String
  trading_pair_2 : String
  hedge_ratio : Rat
  zscore_length : Nat
  spread_length : Nat
  entry_threshold : Rat
  exit_threshold : Rat
  sl_threshold : Rat
  order_amount_usd : Rat
  deriving DecidableEq

/-- The class-level constant values (lines 17-35):
`hedge_ratio = 0.3`, `zscore_length = 200`, `spread_length = 250`,
`entry_threshold = 1`, `exit_threshold = 0`, `sl_threshold = 3`,
`order_amount_usd = 200`. -/
def defaultConfig : StratConfig :=
  ⟨"ETH-USDT", "BTC-USDT", 3 / 10, 200, 250, 1, 0, 3, 200⟩

/-- The mutable strategy fields (lines 36-38): the position flag and the two
stored order ids (Python `None` is `none`; order ids are non-empty strings in
hummingbot, modelled as numbers, so Python truthiness is `Option.isSome`). -/
structure StratState where
  position_open : Bool
  long_order_id : Option Nat
  short_order_id : Option Nat
  deriving DecidableEq

/-- The initial field values (lines 36-38). -/
def initialState : StratState := ⟨false, none, none⟩

/-- The snapshot of external collaborators one `on_tick` cycle reads:
candle readiness, the z-score column's last cell (outer `none` models
`calculate_spread_and_zscore` returning `None`; inner `none` a `NaN` cell),
the two oracle conversion rates, the two mid prices (nullable per the
market-data interface contracts), and the order ids the execution interface
would return for this cycle's two open legs. -/
structure TickEnv where
  all_candles_ready : Bool
  zscore_result : Option (Option Rat)
  conversion_rate_1 : Option Rat
  conversion_rate_2 : Option Rat
  mid_price_1 : Option Rat
  mid_price_2 : Option Rat
  buy_open_id : Option Nat
  sell_open_id : Option Nat
  deriving DecidableEq

/-- The one unhandled exception `on_tick` can raise: line 65/66 multiplies
the mid price by `Decimal(0.99)` without a `None` check, a `TypeError` when
the mid price is null. -/
inductive TickError where
  | mid_price_none
  deriving DecidableEq

/-- Python float comparison `z > t` where `z` may be `NaN` (`none`):
every comparison against `NaN` is false. -/
def nanGt (z : Option Rat) (t : Rat) : Bool :=
  match z with
  | none => false
  | some z => t < z

/-- Python float comparison `z < t` where `z` may be `NaN` (`none`). -/
def nanLt (z : Option Rat) (t : Rat) : Bool :=
  match z with
  | none => false
  | some z => z < t

/-- The close legs submitted by lines 90-107: a buy-to-close on leg 1 only if
`long_order_id` is truthy, and a sell-to-close on leg 2 only if
`short_order_id` is truthy. -/
def closeOrders (cfg : StratConfig) (amount_1 amount_2 price_1 price_2 : Rat)
    (lo so : Option Nat) : List OrderReq :=
  (if lo.isSome then
    [⟨cfg.trading_pair_1, Side.buy, amount_1, price_1, PositionAction.CLOSE⟩]
   else []) ++
  (if so.isSome then
    [⟨cfg.trading_pair_2, Side.sell, amount_2, price_2, PositionAction.CLOSE⟩]
   else [])

/-- `StatArb.on_tick` (lines 49-108) as a function of the cycle's snapshot
and the mutable fields, returning the new fields and the submitted orders,
or the unhandled `TypeError` of a null mid price.  Control flow mirrors the
source: candle-readiness guard (50), dataframe guard (52), conversion-rate
`None` check returning early (59-61), amount and discounted price
computation (63-66), then the entry branch (68-86), the exit branch
(88-108), or no action. -/
def on_tick (cfg : StratConfig) (env : TickEnv) (s : StratState) :
    Except TickError (StratState × List OrderReq) :=
  if env.all_candles_ready then
    match env.zscore_result with
    | none => .ok (s, [])
    | some zscore =>
      match env.conversion_rate_1, env.conversion_rate_2 with
      | some rate_1, some rate_2 =>
        match env.mid_price_1, env.mid_price_2 with
        | some mid_1, some mid_2 =>
          let amount_1 := cfg.order_amount_usd / rate_1
          let amount_2 := cfg.order_amount_usd / rate_2
          let price_1 := mid_1 * (99 / 100)
          let price_2 := mid_2 * (99 / 100)
          if nanGt zscore cfg.entry_threshold && nanLt zscore cfg.sl_threshold
              && !s.position_open then
            .ok (⟨true, env.buy_open_id, env.sell_open_id⟩,
              [⟨cfg.trading_pair_1, Side.buy, amount_1, price_1, PositionAction.OPEN⟩,
               ⟨cfg.trading_pair_2, Side.sell, amount_2, price_2, PositionAction.OPEN⟩])
          else if (nanLt zscore cfg.exit_threshold || nanGt zscore cfg.entry_threshold)
              && s.position_open then
            .ok (⟨false, s.long_order_id, s.short_order_id⟩,
              closeOrders cfg amount_1 amount_2 price_1 price_2
                s.long_order_id s.short_order_id)
          else
            .ok (s, [])
        | _, _ => .error .mid_price_none
      | _, _ => .ok (s, [])
  else .ok (s, [])

/-- The strategy fields after one cycle: an unhandled exception leaves the
fields untouched (the `TypeError` of line 65/66 fires before any mutation). -/
def step_state (cfg : StratConfig) (env : TickEnv) (s : StratState) : StratState :=
  match on_tick cfg env s with
  | .ok (s2, _) => s2
  | .error _ => s

/-- The strategy fields after a sequence of cycles from process start. -/
def run_ticks (cfg : StratConfig) (envs : List TickEnv) : StratState :=
  envs.foldl (fun s e => step_state cfg e s) initialState

/-- The error type named by the specification for malformed thresholds.
The script never constructs it. -/
inductive ConfigurationError where
  | invalid_threshold_ordering
  deriving DecidableEq

/-- `StatArb.__init__` (lines 40-43): calls the base constructor and starts
the two candle feeds (external effects), and performs no threshold
validation whatsoever, so construction never fails on thresholds. -/
def init_strategy (cfg : StratConfig) : Except ConfigurationError StratConfig :=
  .ok cfg

/-- A cycle snapshot with all market data present, unit rates and prices,
a given z-score cell, and open-leg order ids 1 and 2. -/
def envZ (z : Rat) : TickEnv :=
  ⟨true, some (some z), some 1, some 1, some 1, some 1, some 1, some 2⟩

/-- A malformed configuration: `exit_threshold = 1 ≥ entry_threshold = 0`. -/
def badConfig : StratConfig :=
  ⟨"ETH-USDT", "BTC-USDT", 3 / 10, 200, 250, 0, 1, 3, 200⟩

/-! ### Theorems -/

/-- C5: the engine returns `NotReady` (`none`) iff the aligned input is
shorter than `spread_length`; at the boundary, exactly `spread_length` rows
already produce a result. -/
theorem C5_not_ready_iff (hedge_ratio : Rat) (spread_length zscore_length : Nat)
    (aligned : List AlignedRow) :
    (calculate_spread_and_zscore hedge_ratio spread_length zscore_length aligned = none ↔
      aligned.length < spread_length) ∧
    (aligned.length = spread_length →
      ∃ rows, calculate_spread_and_zscore hedge_ratio spread_length zscore_length aligned =
        some rows) := by
  constructor
  · unfold calculate_spread_and_zscore
    split
    · simp
      omega
    · simp
      omega
  · intro h
    refine ⟨spread_rows hedge_ratio zscore_length aligned, ?_⟩
    unfold calculate_spread_and_zscore
    rw [if_pos (by omega)]

theorem C5_not_ready_iff_witness :
    calculate_spread_and_zscore 0 3 2 [] = none :=
  (C5_not_ready_iff 0 3 2 []).1.mpr (by decide)

/-- C1: with candles ready, a real z-score, conversion rates and mid prices
available, and the position flat, `on_tick` opens — submits a buy-to-open on
leg 1 and a sell-to-open on leg 2, stores both returned order ids and sets
the flag — if and only if `entry_threshold < z < sl_threshold`, both
comparisons strict. -/
theorem C1_open_iff (cfg : StratConfig) (z rate_1 rate_2 mid_1 mid_2 : Rat)
    (bid sid : Option Nat) (s : StratState) (hflat : s.position_open = false) :
    on_tick cfg ⟨true, some (some z), some rate_1, some rate_2,
        some mid_1, some mid_2, bid, sid⟩ s =
      .ok (⟨true, bid, sid⟩,
        [⟨cfg.trading_pair_1, Side.buy, cfg.order_amount_usd / rate_1,
            mid_1 * (99 / 100), PositionAction.OPEN⟩,
         ⟨cfg.trading_pair_2, Side.sell, cfg.order_amount_usd / rate_2,
            mid_2 * (99 / 100), PositionAction.OPEN⟩]) ↔
      (cfg.entry_threshold < z ∧ z < cfg.sl_threshold) := by
  obtain ⟨po, lo, so⟩ := s
  simp only [StratState.position_open] at hflat
  subst hflat
  by_cases h1 : cfg.entry_threshold < z <;> by_cases h2 : z < cfg.sl_threshold <;>
    simp [on_tick, nanGt, nanLt, h1, h2]

theorem C1_open_iff_witness :
    on_tick defaultConfig ⟨true, some (some 2), some 1, some 1,
        some 1, some 1, some 1, some 2⟩ initialState =
      .ok (⟨true, some 1, some 2⟩,
        [⟨defaultConfig.trading_pair_1, Side.buy, defaultConfig.order_amount_usd / 1,
            1 * (99 / 100), PositionAction.OPEN⟩,
         ⟨defaultConfig.trading_pair_2, Side.sell, defaultConfig.order_amount_usd / 1,
            1 * (99 / 100), PositionAction.OPEN⟩]) :=
  (C1_open_iff defaultConfig 2 1 1 1 1 (some 1) (some 2) initialState rfl).mpr
    ⟨by decide, by decide⟩

/-- C2: with candles ready, a real z-score, conversion rates and mid prices
available, and the position open, `on_tick` closes — clears the flag and
submits the stored-id-guarded close legs — if and only if
`z < exit_threshold` or `z > entry_threshold`; otherwise the cycle holds,
leaving the fields unchanged and submitting nothing. -/
theorem C2_close_iff (cfg : StratConfig) (z rate_1 rate_2 mid_1 mid_2 : Rat)
    (bid sid lo so : Option Nat) :
    (on_tick cfg ⟨true, some (some z), some rate_1, some rate_2,
        some mid_1, some mid_2, bid, sid⟩ ⟨true, lo, so⟩ =
      .ok (⟨false, lo, so⟩,
        closeOrders cfg (cfg.order_amount_usd / rate_1) (cfg.order_amount_usd / rate_2)
          (mid_1 * (99 / 100)) (mid_2 * (99 / 100)) lo so) ↔
      (z < cfg.exit_threshold ∨ cfg.entry_threshold < z)) ∧
    (¬(z < cfg.exit_threshold ∨ cfg.entry_threshold < z) →
      on_tick cfg ⟨true, some (some z), some rate_1, some rate_2,
        some mid_1, some mid_2, bid, sid⟩ ⟨true, lo, so⟩ = .ok (⟨true, lo, so⟩, [])) := by
  constructor
  · by_cases h1 : z < cfg.exit_threshold <;> by_cases h2 : cfg.entry_threshold < z <;>
      simp [on_tick, nanGt, nanLt, h1, h2]
  · intro h
    push_neg at h
    obtain ⟨h1, h2⟩ := h
    simp [on_tick, nanGt, nanLt, not_lt.mpr h1, not_lt.mpr h2]

theorem C2_close_iff_witness :
    on_tick defaultConfig ⟨true, some (some 2), some 1, some 1,
        some 1, some 1, some 1, some 2⟩ ⟨true, some 1, some 2⟩ =
      .ok (⟨false, some 1, some 2⟩,
        closeOrders defaultConfig (defaultConfig.order_amount_usd / 1)
          (defaultConfig.order_amount_usd / 1) (1 * (99 / 100)) (1 * (99 / 100))
          (some 1) (some 2)) :=
  (C2_close_iff defaultConfig 2 1 1 1 1 (some 1) (some 2)
      (some 1) (some 2)).1.mpr (Or.inr (by decide))

/-- C3 counterexample: with thresholds entry = 1, exit = 0, sl = 3
(the class defaults), feeding z = 1.5 from flat does open the position
(as the claim says), but feeding z = 2.0 on the next cycle while open does
NOT hold: since 2.0 > entry_threshold the machine closes both legs and
returns to flat, contradicting the claimed HOLD. -/
theorem C3_counterexample :
    step_state defaultConfig (envZ (3 / 2)) initialState = ⟨true, some 1, some 2⟩ ∧
    on_tick defaultConfig (envZ 2) ⟨true, some 1, some 2⟩ =
      .ok (⟨false, some 1, some 2⟩,
        [⟨"ETH-USDT", Side.buy, 200, 99 / 100, PositionAction.CLOSE⟩,
         ⟨"BTC-USDT", Side.sell, 200, 99 / 100, PositionAction.CLOSE⟩]) := by
  constructor
  · norm_num [step_state, on_tick, envZ, defaultConfig, initialState, nanGt, nanLt]
  · norm_num [on_tick, envZ, defaultConfig, nanGt, nanLt, closeOrders]

/-- C3 amended: starting flat with thresholds (entry = 1, exit = 0, sl = 3),
feeding 1.5 opens (buy-to-open leg 1, sell-to-open leg 2, state OPEN);
feeding 2.0 on the next cycle while open triggers the close branch
(2.0 > entry_threshold): both legs are closed and the state returns to FLAT;
feeding −0.5 on the cycle after that, now flat, produces no transition and
no orders. -/
theorem C3_amended :
    on_tick defaultConfig (envZ (3 / 2)) initialState =
      .ok (⟨true, some 1, some 2⟩,
        [⟨"ETH-USDT", Side.buy, 200, 99 / 100, PositionAction.OPEN⟩,
         ⟨"BTC-USDT", Side.sell, 200, 99 / 100, PositionAction.OPEN⟩]) ∧
    on_tick defaultConfig (envZ 2) ⟨true, some 1, some 2⟩ =
      .ok (⟨false, some 1, some 2⟩,
        [⟨"ETH-USDT", Side.buy, 200, 99 / 100, PositionAction.CLOSE⟩,
         ⟨"BTC-USDT", Side.sell, 200, 99 / 100, PositionAction.CLOSE⟩]) ∧
    on_tick defaultConfig (envZ (-(1 / 2))) ⟨false, some 1, some 2⟩ =
      .ok (⟨false, some 1, some 2⟩, []) := by
  refine ⟨?_, ?_, ?_⟩ <;>
    norm_num [on_tick, envZ, defaultConfig, initialState, nanGt, nanLt, closeOrders]

theorem closeOrders_action (cfg : StratConfig) (amount_1 amount_2 price_1 price_2 : Rat)
    (lo so : Option Nat) :
    ∀ o ∈ closeOrders cfg amount_1 amount_2 price_1 price_2 lo so,
      o.position_action = PositionAction.CLOSE := by
  intro o ho
  unfold closeOrders at ho
  rcases List.mem_append.mp ho with h | h <;> split at h <;> simp_all

/-- Every successful cycle takes exactly one of three forms: no action, an
opening transition from flat, or a closing transition from open. -/
theorem on_tick_shape (cfg : StratConfig) (env : TickEnv) (s s2 : StratState)
    (out : List OrderReq) (h : on_tick cfg env s = .ok (s2, out)) :
    (s2 = s ∧ out = []) ∨
    (s.position_open = false ∧ s2 = ⟨true, env.buy_open_id, env.sell_open_id⟩ ∧
      out.length = 2 ∧ ∀ o ∈ out, o.position_action = PositionAction.OPEN) ∨
    (s.position_open = true ∧ s2 = ⟨false, s.long_order_id, s.short_order_id⟩ ∧
      ∀ o ∈ out, o.position_action = PositionAction.CLOSE) := by
  simp only [on_tick] at h
  split at h
  · split at h
    · injection h with h1
      injection h1 with ha hb
      exact Or.inl ⟨ha.symm, hb.symm⟩
    · split at h
      · split at h
        · split at h
          · rename_i hc
            injection h with h1
            injection h1 with ha hb
            simp only [Bool.and_eq_true, Bool.not_eq_true'] at hc
            refine Or.inr (Or.inl ⟨hc.2, ha.symm, ?_, ?_⟩)
            · rw [← hb]; rfl
            · rw [← hb]; simp
          · split at h
            · rename_i hc2
              injection h with h1
              injection h1 with ha hb
              simp only [Bool.and_eq_true] at hc2
              refine Or.inr (Or.inr ⟨hc2.2, ha.symm, ?_⟩)
              rw [← hb]
              exact closeOrders_action cfg _ _ _ _ _ _
            · injection h with h1
              injection h1 with ha hb
              exact Or.inl ⟨ha.symm, hb.symm⟩
        · exact Except.noConfusion h
      · injection h with h1
        injection h1 with ha hb
        exact Or.inl ⟨ha.symm, hb.symm⟩
  · injection h with h1
    injection h1 with ha hb
    exact Or.inl ⟨ha.symm, hb.symm⟩

/-- A cycle whose state is open and whose real z-score satisfies the close
condition, with both stored order ids present, closes both legs. -/
theorem on_tick_close (cfg : StratConfig) (z rate_1 rate_2 mid_1 mid_2 : Rat)
    (bid sid : Option Nat) (a b : Nat)
    (hz : z < cfg.exit_threshold ∨ cfg.entry_threshold < z) :
    on_tick cfg ⟨true, some (some z), some rate_1, some rate_2,
        some mid_1, some mid_2, bid, sid⟩ ⟨true, some a, some b⟩ =
      .ok (⟨false, some a, some b⟩,
        [⟨cfg.trading_pair_1, Side.buy, cfg.order_amount_usd / rate_1,
            mid_1 * (99 / 100), PositionAction.CLOSE⟩,
         ⟨cfg.trading_pair_2, Side.sell, cfg.order_amount_usd / rate_2,
            mid_2 * (99 / 100), PositionAction.CLOSE⟩]) := by
  rcases hz with hz | hz <;> simp [on_tick, nanGt, nanLt, closeOrders, hz]

/-- One cycle preserves the invariant: an open position has both order ids
stored, provided this cycle's execution interface returns ids. -/
theorem step_preserves (cfg : StratConfig) (env : TickEnv) (s : StratState)
    (hb : env.buy_open_id.isSome = true) (hsd : env.sell_open_id.isSome = true)
    (h : s.position_open = true →
      s.long_order_id.isSome = true ∧ s.short_order_id.isSome = true) :
    (step_state cfg env s).position_open = true →
      (step_state cfg env s).long_order_id.isSome = true ∧
      (step_state cfg env s).short_order_id.isSome = true := by
  cases hot : on_tick cfg env s with
  | error e =>
    have hstep : step_state cfg env s = s := by unfold step_state; rw [hot]
    rw [hstep]; exact h
  | ok p =>
    obtain ⟨s2, out⟩ := p
    have hstep : step_state cfg env s = s2 := by unfold step_state; rw [hot]
    rw [hstep]
    rcases on_tick_shape cfg env s s2 out hot with ⟨hs, _⟩ | ⟨_, hs, _, _⟩ | ⟨_, hs, _⟩
    · subst hs; exact h
    · subst hs; intro _; exact ⟨hb, hsd⟩
    · subst hs; intro hx; exact absurd hx (by simp)

/-- The invariant holds after any run in which every cycle's execution
interface returns order ids. -/
theorem run_inv (cfg : StratConfig) :
    ∀ (envs : List TickEnv) (s : StratState),
    (∀ e ∈ envs, e.buy_open_id.isSome = true ∧ e.sell_open_id.isSome = true) →
    (s.position_open = true →
      s.long_order_id.isSome = true ∧ s.short_order_id.isSome = true) →
    ((envs.foldl (fun s e => step_state cfg e s) s).position_open = true →
      (envs.foldl (fun s e => step_state cfg e s) s).long_order_id.isSome = true ∧
      (envs.foldl (fun s e => step_state cfg e s) s).short_order_id.isSome = true)
  | [], _, _, hs => by simpa using hs
  | e :: es, s, he, hs => by
    simp only [List.foldl_cons]
    exact run_inv cfg es (step_state cfg e s)
      (fun x hx => he x (List.mem_cons_of_mem _ hx))
      (step_preserves cfg e s (he e (List.mem_cons_self _ _)).1
        (he e (List.mem_cons_self _ _)).2 hs)

/-- C7: at most one paired position is ever open: on every successful cycle,
open orders are submitted only when the state was flat (and the flag is then
set), a cycle whose state is already open never submits another open leg,
and no cycle both opens and closes (the state changes at most once per
cycle). -/
theorem C7_single_position (cfg : StratConfig) (env : TickEnv) (s s2 : StratState)
    (out : List OrderReq) (h : on_tick cfg env s = .ok (s2, out)) :
    ((∃ o ∈ out, o.position_action = PositionAction.OPEN) →
      s.position_open = false ∧ s2.position_open = true) ∧
    (s.position_open = true → ∀ o ∈ out, o.position_action = PositionAction.CLOSE) ∧
    ¬((∃ o ∈ out, o.position_action = PositionAction.OPEN) ∧
      (∃ o ∈ out, o.position_action = PositionAction.CLOSE)) := by
  rcases on_tick_shape cfg env s s2 out h with ⟨hs, ho⟩ | ⟨hf, hs, _, hall⟩ | ⟨ht, hs, hall⟩
  · subst hs; subst ho
    refine ⟨?_, ?_, ?_⟩ <;> simp
  · subst hs
    refine ⟨fun _ => ⟨hf, rfl⟩, ?_, ?_⟩
    · intro hT; rw [hf] at hT; exact absurd hT (by simp)
    · rintro ⟨-, ⟨o, ho, hc⟩⟩
      rw [hall o ho] at hc
      exact PositionAction.noConfusion hc
  · subst hs
    refine ⟨?_, fun _ => hall, ?_⟩
    · rintro ⟨o, ho, hc⟩
      rw [hall o ho] at hc
      exact PositionAction.noConfusion hc
    · rintro ⟨⟨o, ho, hc⟩, -⟩
      rw [hall o ho] at hc
      exact PositionAction.noConfusion hc

theorem C7_single_position_witness :
    initialState.position_open = false ∧
    (StratState.mk true (some 1) (some 2)).position_open = true :=
  (C7_single_position defaultConfig (envZ 2) initialState ⟨true, some 1, some 2⟩
      [⟨"ETH-USDT", Side.buy, 200, 99 / 100, PositionAction.OPEN⟩,
       ⟨"BTC-USDT", Side.sell, 200, 99 / 100, PositionAction.OPEN⟩]
      (by norm_num [on_tick, envZ, defaultConfig, initialState, nanGt, nanLt])).1
    ⟨⟨"ETH-USDT", Side.buy, 200, 99 / 100, PositionAction.OPEN⟩, by simp, rfl⟩

/-- C8 counterexample: a cycle with candles ready, a usable z-score and
valid conversion rates but a null mid price does not "do nothing": line 65
multiplies the null mid price by `Decimal(0.99)`, an unhandled `TypeError`,
contradicting the claim that no recoverable-condition cycle lets an
exception escape. -/
theorem C8_counterexample :
    on_tick defaultConfig ⟨true, some (some 2), some 1, some 1, none, some 1,
      some 1, some 2⟩ initialState = .error TickError.mid_price_none := rfl

/-- C8 amended: the recoverable conditions NotReady (candles not ready, or
too little aligned history so the dataframe is `None`), NoSignal (`NaN`
z-score) and a null conversion rate each make the cycle do nothing — no
order, unchanged fields, no exception; a null mid price, however, is not
guarded: the cycle raises the `TypeError` of line 65/66 (still submitting
nothing and leaving the fields unchanged), the only exception `on_tick` can
raise. -/
theorem C8_amended (cfg : StratConfig) (s : StratState) :
    (∀ env : TickEnv, env.all_candles_ready = false → on_tick cfg env s = .ok (s, [])) ∧
    (∀ env : TickEnv, env.zscore_result = none → on_tick cfg env s = .ok (s, [])) ∧
    (∀ env : TickEnv, env.conversion_rate_1 = none ∨ env.conversion_rate_2 = none →
      on_tick cfg env s = .ok (s, [])) ∧
    (∀ rate_1 rate_2 mid_1 mid_2 bid sid,
      on_tick cfg ⟨true, some none, some rate_1, some rate_2,
        some mid_1, some mid_2, bid, sid⟩ s = .ok (s, [])) ∧
    (∀ env : TickEnv, ∀ e, on_tick cfg env s = .error e →
      e = TickError.mid_price_none ∧ step_state cfg env s = s) := by
  refine ⟨?_, ?_, ?_, ?_, ?_⟩
  · intro env h
    simp [on_tick, h]
  · intro env h
    obtain ⟨rdy, zs, c1, c2, m1, m2, b1, s1⟩ := env
    dsimp only at h
    subst h
    cases rdy <;> simp [on_tick]
  · intro env h
    obtain ⟨rdy, zs, c1, c2, m1, m2, b1, s1⟩ := env
    dsimp only at h
    rcases h with rfl | rfl
    · cases rdy <;> cases zs <;> simp [on_tick]
    · cases rdy <;> cases zs <;> cases c1 <;> simp [on_tick]
  · intro rate_1 rate_2 mid_1 mid_2 bid sid
    simp [on_tick, nanGt, nanLt]
  · intro env e h
    refine ⟨by cases e; rfl, ?_⟩
    unfold step_state
    rw [h]

theorem C8_amended_witness :
    on_tick defaultConfig ⟨false, none, none, none, none, none, none, none⟩
      initialState = .ok (initialState, []) :=
  (C8_amended defaultConfig initialState).1
    ⟨false, none, none, none, none, none, none, none⟩ rfl

/-- C9 counterexample: `__init__` performs no threshold validation: a
configuration with `exit_threshold = 1 ≥ entry_threshold = 0` is accepted
and construction succeeds, contradicting the claim that a
`ConfigurationError` is raised at construction time. -/
theorem C9_counterexample :
    init_strategy badConfig = .ok badConfig ∧
    badConfig.entry_threshold ≤ badConfig.exit_threshold :=
  ⟨rfl, by decide⟩

/-- C9 amended: construction never validates thresholds — it succeeds for
every configuration, malformed or not — and no `ConfigurationError` is ever
raised; the shipped default thresholds do satisfy
`exit_threshold < entry_threshold < sl_threshold`, and the decision logic
itself (pure comparisons) cannot fail at decision time. -/
theorem C9_amended :
    (∀ cfg : StratConfig, init_strategy cfg = .ok cfg) ∧
    defaultConfig.exit_threshold < defaultConfig.entry_threshold ∧
    defaultConfig.entry_threshold < defaultConfig.sl_threshold :=
  ⟨fun _ => rfl, by decide, by decide⟩

/-- C10: in every state reachable from process start in which the position
flag is set, both leg order ids were stored by the same opening cycle
(assuming the execution interface returned ids on each cycle), and any
close-triggering cycle from such a state therefore submits both guarded
close legs: a buy-to-close on leg 1 and a sell-to-close on leg 2. -/
theorem C10_close_both (cfg : StratConfig) (envs : List TickEnv)
    (h : ∀ e ∈ envs, e.buy_open_id.isSome = true ∧ e.sell_open_id.isSome = true)
    (hopen : (run_ticks cfg envs).position_open = true) :
    (run_ticks cfg envs).long_order_id.isSome = true ∧
    (run_ticks cfg envs).short_order_id.isSome = true ∧
    ∀ z rate_1 rate_2 mid_1 mid_2 : Rat, ∀ bid sid : Option Nat,
      (z < cfg.exit_threshold ∨ cfg.entry_threshold < z) →
      on_tick cfg ⟨true, some (some z), some rate_1, some rate_2,
          some mid_1, some mid_2, bid, sid⟩ (run_ticks cfg envs) =
        .ok (⟨false, (run_ticks cfg envs).long_order_id,
              (run_ticks cfg envs).short_order_id⟩,
          [⟨cfg.trading_pair_1, Side.buy, cfg.order_amount_usd / rate_1,
              mid_1 * (99 / 100), PositionAction.CLOSE⟩,
           ⟨cfg.trading_pair_2, Side.sell, cfg.order_amount_usd / rate_2,
              mid_2 * (99 / 100), PositionAction.CLOSE⟩]) := by
  have inv := run_inv cfg envs initialState h (by simp [initialState])
  rw [show envs.foldl (fun s e => step_state cfg e s) initialState = run_ticks cfg envs
    from rfl] at inv
  obtain ⟨hl, hs⟩ := inv hopen
  refine ⟨hl, hs, ?_⟩
  intro z rate_1 rate_2 mid_1 mid_2 bid sid hz
  rcases hrt : run_ticks cfg envs with ⟨po, lo, so⟩
  rw [hrt] at hopen hl hs
  simp only at hopen hl hs
  subst hopen
  obtain ⟨a, rfl⟩ := Option.isSome_iff_exists.mp hl
  obtain ⟨b, rfl⟩ := Option.isSome_iff_exists.mp hs
  exact on_tick_close cfg z rate_1 rate_2 mid_1 mid_2 bid sid a b hz

theorem window_some (n : Nat) (xs : List Rat) (i : Nat) (h : n ≤ i + 1) :
    window n xs i = some ((xs.take (i + 1)).drop (i + 1 - n)) := by
  unfold window; rw [if_pos h]

theorem window_none (n : Nat) (xs : List Rat) (i : Nat) (h : i + 1 < n) :
    window n xs i = none := by
  unfold window; rw [if_neg (by omega)]

theorem window_length (n : Nat) (xs : List Rat) (i : Nat) (h1 : n ≤ i + 1)
    (h2 : i < xs.length) :
    ((xs.take (i + 1)).drop (i + 1 - n)).length = n := by
  rw [List.length_drop, List.length_take]
  omega

theorem range_map_getD {α : Type} (n : Nat) (f : Nat → α) (i : Nat) (d : α)
    (hi : i < n) : ((List.range n).map f).getD i d = f i := by
  rw [List.getD_eq_getElem?_getD, List.getElem?_map, List.getElem?_range hi]
  rfl

theorem getD_map_spread (hedge_ratio : Rat) (l : List AlignedRow) (i : Nat)
    (hi : i < l.length) :
    (l.map (spread_of hedge_ratio)).getD i 0 =
      spread_of hedge_ratio (l.getD i default) := by
  rw [List.getD_eq_getElem?_getD, List.getD_eq_getElem?_getD, List.getElem?_map,
    List.getElem?_eq_getElem hi]
  rfl

theorem spread_rows_getD (hedge_ratio : Rat) (zscore_length : Nat)
    (aligned : List AlignedRow) (i : Nat) (hi : i < aligned.length) :
    (spread_rows hedge_ratio zscore_length aligned).getD i dRow =
      ⟨(aligned.getD i default).timestamp,
       (aligned.getD i default).close_1,
       (aligned.getD i default).close_2,
       (aligned.map (spread_of hedge_ratio)).getD i 0,
       rolling_mean zscore_length (aligned.map (spread_of hedge_ratio)) i,
       rolling_std zscore_length (aligned.map (spread_of hedge_ratio)) i,
       z_score_at zscore_length (aligned.map (spread_of hedge_ratio)) i⟩ := by
  simp only [spread_rows]
  rw [range_map_getD aligned.length _ i dRow hi]

theorem sampleVar_eq (w : List Rat) (n : Nat) (hw : w.length = n) (hn : 2 ≤ n) :
    sampleVar w =
      some ((w.map (fun x => (x - w.sum / (n : Rat)) ^ 2)).sum / ((n : Rat) - 1)) := by
  unfold sampleVar listMean
  rw [hw, if_pos hn]

theorem rolling_mean_eq (n : Nat) (xs : List Rat) (i : Nat) (w : List Rat)
    (hwin : window n xs i = some w) (hwl : w.length = n) :
    rolling_mean n xs i = some (w.sum / (n : Rat)) := by
  unfold rolling_mean
  rw [hwin]
  simp only [Option.map_some']
  unfold listMean
  rw [hwl]

theorem rolling_var_eq (n : Nat) (xs : List Rat) (i : Nat) (w : List Rat)
    (hwin : window n xs i = some w) (hwl : w.length = n) (hn : 2 ≤ n) :
    rolling_var n xs i =
      some ((w.map (fun x => (x - w.sum / (n : Rat)) ^ 2)).sum / ((n : Rat) - 1)) := by
  unfold rolling_var
  rw [hwin]
  simp only [Option.some_bind]
  exact sampleVar_eq w n hwl hn

theorem sampleVar_value_nonneg (w : List Rat) (n : Nat) (hn : 2 ≤ n) :
    0 ≤ (w.map (fun x => (x - w.sum / (n : Rat)) ^ 2)).sum / ((n : Rat) - 1) := by
  apply div_nonneg
  · apply List.sum_nonneg
    intro x hx
    obtain ⟨y, -, rfl⟩ := List.mem_map.mp hx
    positivity
  · have h2 : (2 : Rat) ≤ (n : Rat) := by exact_mod_cast hn
    linarith

theorem rolling_mean_none (n : Nat) (xs : List Rat) (i : Nat) (h : i + 1 < n) :
    rolling_mean n xs i = none := by
  unfold rolling_mean; rw [window_none n xs i h]; rfl

theorem rolling_var_none (n : Nat) (xs : List Rat) (i : Nat) (h : i + 1 < n) :
    rolling_var n xs i = none := by
  unfold rolling_var; rw [window_none n xs i h]; rfl

theorem rolling_std_none (n : Nat) (xs : List Rat) (i : Nat) (h : i + 1 < n) :
    rolling_std n xs i = none := by
  unfold rolling_std; rw [rolling_var_none n xs i h]; rfl

theorem z_score_at_none (n : Nat) (xs : List Rat) (i : Nat) (h : i + 1 < n) :
    z_score_at n xs i = none := by
  unfold z_score_at
  rw [rolling_mean_none n xs i h, rolling_var_none n xs i h]

theorem z_score_at_eq (n : Nat) (xs : List Rat) (i : Nat) (m v : Rat)
    (hm : rolling_mean n xs i = some m) (hv : rolling_var n xs i = some v) :
    z_score_at n xs i =
      if v ≤ 0 then none
      else some (((xs.getD i 0 - m : Rat) : Real) / Real.sqrt (v : Real)) := by
  unfold z_score_at
  rw [hm, hv]

theorem window_take (n : Nat) (xs : List Rat) (i : Nat) :
    window n (xs.take (i + 1)) i = window n xs i := by
  unfold window
  rw [List.take_take]
  simp

theorem getD_take_self (xs : List Rat) (i : Nat) :
    (xs.take (i + 1)).getD i 0 = xs.getD i 0 := by
  rw [List.getD_eq_getElem?_getD, List.getD_eq_getElem?_getD,
    List.getElem?_take_of_lt (Nat.lt_succ_self i)]

theorem rolling_mean_take (n : Nat) (xs : List Rat) (i : Nat) :
    rolling_mean n (xs.take (i + 1)) i = rolling_mean n xs i := by
  unfold rolling_mean; rw [window_take]

theorem rolling_var_take (n : Nat) (xs : List Rat) (i : Nat) :
    rolling_var n (xs.take (i + 1)) i = rolling_var n xs i := by
  unfold rolling_var; rw [window_take]

theorem rolling_std_take (n : Nat) (xs : List Rat) (i : Nat) :
    rolling_std n (xs.take (i + 1)) i = rolling_std n xs i := by
  unfold rolling_std; rw [rolling_var_take]

theorem z_score_at_take (n : Nat) (xs : List Rat) (i : Nat) :
    z_score_at n (xs.take (i + 1)) i = z_score_at n xs i := by
  unfold z_score_at
  rw [rolling_mean_take, rolling_var_take, getD_take_self]

/-- C4: on any aligned input of at least `spread_length` rows the engine
returns one output row per input row, where row `i` has
`spread = close_1 − hedge_ratio · close_2`; the rolling statistics and
z-score are null while fewer than `zscore_length` spread values are
available, and from the `zscore_length`-th row on the rolling mean is the
mean and the rolling std the sample standard deviation (square root of the
`ddof = 1` variance `v`) of the trailing `zscore_length` spread values
ending at `i` inclusive, with `z = (spread − mean)/std` whenever the
variance is nonzero; and every statistic of row `i` equals the one computed
from only the first `i + 1` rows (no look-ahead). -/
theorem C4_engine_rows (hedge_ratio : Rat) (spread_length zscore_length : Nat)
    (aligned : List AlignedRow)
    (hlen : spread_length ≤ aligned.length) (hz : 2 ≤ zscore_length) :
    ∃ rows,
      calculate_spread_and_zscore hedge_ratio spread_length zscore_length aligned =
        some rows ∧
      rows.length = aligned.length ∧
      ∀ i, i < aligned.length → ∀ sp, sp = aligned.map (spread_of hedge_ratio) →
        ((rows.getD i dRow).spread =
          (aligned.getD i default).close_1 -
            hedge_ratio * (aligned.getD i default).close_2) ∧
        (i + 1 < zscore_length →
          (rows.getD i dRow).rolling_mean = none ∧
          (rows.getD i dRow).rolling_std = none ∧
          (rows.getD i dRow).z_score = none) ∧
        (zscore_length ≤ i + 1 →
          ∀ w, w = (sp.take (i + 1)).drop (i + 1 - zscore_length) →
          ∀ v, v = (w.map (fun x => (x - w.sum / (zscore_length : Rat)) ^ 2)).sum /
              ((zscore_length : Rat) - 1) →
          (rows.getD i dRow).rolling_mean = some (w.sum / (zscore_length : Rat)) ∧
          (rows.getD i dRow).rolling_std = some (Real.sqrt (v : Real)) ∧
          0 ≤ v ∧
          (v ≠ 0 → (rows.getD i dRow).z_score =
            some ((((rows.getD i dRow).spread - w.sum / (zscore_length : Rat) : Rat) : Real) /
              Real.sqrt (v : Real))) ∧
          (v = 0 → (rows.getD i dRow).z_score = none)) ∧
        ((rows.getD i dRow).rolling_mean =
          rolling_mean zscore_length ((aligned.take (i + 1)).map (spread_of hedge_ratio)) i ∧
         (rows.getD i dRow).rolling_std =
          rolling_std zscore_length ((aligned.take (i + 1)).map (spread_of hedge_ratio)) i ∧
         (rows.getD i dRow).z_score =
          z_score_at zscore_length ((aligned.take (i + 1)).map (spread_of hedge_ratio)) i) := by
  refine ⟨spread_rows hedge_ratio zscore_length aligned, ?_, ?_, ?_⟩
  · unfold calculate_spread_and_zscore
    rw [if_pos hlen]
  · simp [spread_rows]
  · intro i hi sp hsp
    subst hsp
    rw [spread_rows_getD hedge_ratio zscore_length aligned i hi]
    dsimp only
    have hspl : i < (aligned.map (spread_of hedge_ratio)).length := by
      rw [List.length_map]; exact hi
    refine ⟨?_, ?_, ?_, ?_, ?_, ?_⟩
    · rw [getD_map_spread hedge_ratio aligned i hi]
      unfold spread_of
      ring
    · intro hlt
      exact ⟨rolling_mean_none _ _ _ hlt, rolling_std_none _ _ _ hlt,
        z_score_at_none _ _ _ hlt⟩
    · intro hge w hw v hv
      have hwin : window zscore_length (aligned.map (spread_of hedge_ratio)) i = some w := by
        rw [window_some _ _ _ hge, hw]
      have hwl : w.length = zscore_length := by
        rw [hw]; exact window_length _ _ _ hge hspl
      have hmean := rolling_mean_eq zscore_length _ i w hwin hwl
      have hvar : rolling_var zscore_length (aligned.map (spread_of hedge_ratio)) i =
          some v := by
        rw [rolling_var_eq zscore_length _ i w hwin hwl hz, ← hv]
      have hv0 : 0 ≤ v := by
        rw [hv]; exact sampleVar_value_nonneg w zscore_length hz
      refine ⟨hmean, ?_, hv0, ?_, ?_⟩
      · unfold rolling_std
        rw [hvar]
        rfl
      · intro hne
        rw [z_score_at_eq zscore_length _ i _ v hmean hvar,
          if_neg (not_le.mpr (lt_of_le_of_ne hv0 (Ne.symm hne)))]
      · intro h0
        rw [z_score_at_eq zscore_length _ i _ v hmean hvar, if_pos (le_of_eq h0)]
    · rw [List.map_take, rolling_mean_take]
    · rw [List.map_take, rolling_std_take]
    · rw [List.map_take, z_score_at_take]

theorem C4_engine_rows_witness :
    ∃ rows, calculate_spread_and_zscore 0 2 2 [⟨0, 1, 0⟩, ⟨1, 3, 0⟩] = some rows ∧
      rows.length = 2 := by
  obtain ⟨rows, h1, h2, -⟩ :=
    C4_engine_rows 0 2 2 [⟨0, 1, 0⟩, ⟨1, 3, 0⟩] (by decide) (by decide)
  exact ⟨rows, h1, h2⟩

/-- C6: whenever a row's rolling standard deviation is null or zero (a NaN
standard deviation cannot arise: the sample variance is never negative),
the row's z-score is null — the division never produces a usable signal;
this holds for the row functions and for every row of a ready engine
result. -/
theorem C6_no_div_zero (zscore_length : Nat) (xs : List Rat) (i : Nat)
    (h : rolling_std zscore_length xs i = none ∨
      rolling_std zscore_length xs i = some 0) :
    z_score_at zscore_length xs i = none ∧
    ∀ (hedge_ratio : Rat) (spread_length : Nat) (aligned : List AlignedRow)
      (rows : List SpreadRow) (d : SpreadRow),
      calculate_spread_and_zscore hedge_ratio spread_length zscore_length aligned =
        some rows →
      xs = aligned.map (spread_of hedge_ratio) → i < aligned.length →
      (rows.getD i d).rolling_std = rolling_std zscore_length xs i ∧
      (rows.getD i d).z_score = none := by
  have hz : z_score_at zscore_length xs i = none := by
    rcases h with h | h
    · have hvar : rolling_var zscore_length xs i = none := by
        unfold rolling_std at h
        exact Option.map_eq_none'.mp h
      cases hm : rolling_mean zscore_length xs i <;>
      · unfold z_score_at
        rw [hm, hvar]
    · unfold rolling_std at h
      obtain ⟨v, hv, hv0⟩ := Option.map_eq_some'.mp h
      have hvle : v ≤ 0 := by
        have hle : (v : Real) ≤ 0 := Real.sqrt_eq_zero'.mp hv0
        exact_mod_cast hle
      have hv2 : rolling_var zscore_length xs i = some v := hv
      unfold rolling_var at hv2
      obtain ⟨w, hw, -⟩ := Option.bind_eq_some.mp hv2
      have hm : rolling_mean zscore_length xs i = some (listMean w) := by
        unfold rolling_mean
        rw [hw]
        rfl
      unfold z_score_at
      rw [hm, hv]
      exact if_pos hvle
  refine ⟨hz, ?_⟩
  intro hedge_ratio spread_length aligned rows d hcalc hxs hi
  unfold calculate_spread_and_zscore at hcalc
  split at hcalc
  · injection hcalc with hrows
    subst hrows
    subst hxs
    rw [show (spread_rows hedge_ratio zscore_length aligned).getD i d =
        (spread_rows hedge_ratio zscore_length aligned).getD i dRow from ?_]
    · rw [spread_rows_getD hedge_ratio zscore_length aligned i hi]
      exact ⟨rfl, hz⟩
    · rw [List.getD_eq_getElem?_getD, List.getD_eq_getElem?_getD,
        List.getElem?_eq_getElem (by simpa [spread_rows] using hi)]
      rfl
  · exact Option.noConfusion hcalc

theorem C6_no_div_zero_witness :
    z_score_at 2 [1, 1] 1 = none := by
  have hvar : rolling_var 2 [1, 1] 1 = some 0 := by
    norm_num [rolling_var, window, sampleVar, listMean]
  have hstd : rolling_std 2 [1, 1] 1 = some 0 := by
    simp only [rolling_std, hvar, Option.map_some']
    norm_num [Real.sqrt_zero]
  exact (C6_no_div_zero 2 [1, 1] 1 (Or.inr hstd)).1

theorem C10_close_both_witness :
    (run_ticks defaultConfig [envZ 2]).long_order_id.isSome = true ∧
    (run_ticks defaultConfig [envZ 2]).short_order_id.isSome = true := by
  have h := C10_close_both defaultConfig [envZ 2] (by decide)
    (by norm_num [run_ticks, step_state, on_tick, envZ, defaultConfig, initialState,
      nanGt, nanLt])
  exact ⟨h.1, h.2.1⟩

end StatArb
